import Mathlib

/-!
Verification of the Cloudflare feedback-intelligence backend.

Shallow embedding of `backend/app/services/cloudflare.py`,
`backend/app/api/feedback.py` and `backend/app/api/chat.py`.
External HTTP calls (Workers AI models, Vectorize, D1, AI Search, Queues)
are modelled by environments that record the outcome of each call:
`Except` for calls whose failure raises, `Option` for payloads that may
fail to parse.  Scores are rationals (the Python floats only ever feed
threshold comparisons and arithmetic the claims state over exact values).
-/

namespace CF

/-- A JSON value, as produced by Python json.loads.  Numbers are split
into integers and a constructor for non-integer numbers (kept abstract by
a numerator/denominator pair) because the code only ever converts with
int(). -/
inductive Json where
  | null : Json
  | bool : Bool → Json
  | int : Int → Json
  | num : Int → Nat → Json
  | str : String → Json
  | arr : List Json → Json
  | obj : List (String × Json) → Json

/-! ## WorkersAIService (backend/app/services/cloudflare.py) -/

/-- Threshold-to-label mapping of WorkersAIService.analyze_sentiment
(cloudflare.py lines 39-44): first match wins. -/
def sentimentLabel (score : ℚ) : String :=
  if score > 3/10 then "positive"
  else if score < -(1/2) then "frustrated"
  else if score < -(3/10) then "concerned"
  else if score < -(1/10) then "annoyed"
  else if score < 1/10 then "neutral"
  else "positive"

/-- Restatement of the spec wording of the sentiment bands with every
band condition written out as an explicit interval (the claim's reading:
ordered evaluation, each band a half-open interval).  Used to check the
code's first-match chain against the disjoint-band reading. -/
def bandLabelSpec (score : ℚ) : String :=
  if 3/10 < score then "positive"
  else if score < -(1/2) then "frustrated"
  else if -(1/2) ≤ score ∧ score < -(3/10) then "concerned"
  else if -(3/10) ≤ score ∧ score < -(1/10) then "annoyed"
  else if -(1/10) ≤ score ∧ score < 1/10 then "neutral"
  else "positive"

/-- WorkersAIService.analyze_sentiment (cloudflare.py lines 31-47) on the
model response.  `none` models a failed or unsuccessful model call (always
raises); `some scores` is the label/score list of result[0]: the positive
and negative probabilities are the first scores labelled POSITIVE and
NEGATIVE, defaulting to 0 (Python next(..., 0)). -/
def analyze_sentiment (resp : Option (List (String × ℚ))) :
    Except String (ℚ × String) :=
  match resp with
  | none => .error "Failed to analyze sentiment"
  | some scores =>
    let positive := ((scores.filter (fun s => s.fst = "POSITIVE")).head?.map Prod.snd).getD 0
    let negative := ((scores.filter (fun s => s.fst = "NEGATIVE")).head?.map Prod.snd).getD 0
    let score := positive - negative
    .ok (score, sentimentLabel score)

/-- Parse handling of WorkersAIService.classify_themes (cloudflare.py
lines 65-69): the argument is the outcome of json.loads on the stripped
model response (`none`: not valid JSON).  A parsed array is returned
verbatim; anything else falls back to the single tag "uncategorized".
The elements are kept as Json values because the code never inspects
them. -/
def classifyThemesParse (parsed : Option Json) : List Json :=
  match parsed with
  | some (.arr xs) => xs
  | _ => [.str "uncategorized"]

/-- WorkersAIService.classify_themes (cloudflare.py lines 60-69).  The
generate_text call sits outside the try block, so its failure
propagates; only the parse is guarded. -/
def classify_themes (resp : Except String (Option Json)) :
    Except String (List Json) :=
  match resp with
  | .error e => .error e
  | .ok parsed => .ok (classifyThemesParse parsed)

/-- Python str.lower, written over the character list so that it
evaluates by kernel reduction. -/
def strLower (s : String) : String := String.mk (s.data.map Char.toLower)

/-- Parse handling of WorkersAIService.calculate_urgency (cloudflare.py
lines 74-77): the argument is the outcome of int() on the stripped model
response.  A parsed integer is clamped into [1,10]; on parse failure the
static per-tier default dict is consulted with the lowercased tier. -/
def urgencyFromParse (parsed : Option Int) (tier : String) : Int :=
  match parsed with
  | some n => max 1 (min 10 n)
  | none =>
    (([("enterprise", (7 : Int)), ("pro", 5), ("free", 3)]).lookup
      (strLower tier)).getD 5

/-- WorkersAIService.calculate_urgency (cloudflare.py lines 71-77).  The
generate_text call sits outside the try block, so its failure
propagates. -/
def calculate_urgency (resp : Except String (Option Int)) (tier : String) :
    Except String Int :=
  match resp with
  | .error e => .error e
  | .ok parsed => .ok (urgencyFromParse parsed tier)

/-- WorkersAIService.generate_embedding (cloudflare.py lines 25-29):
`none` models a failed call or an unsuccessful response, which raises. -/
def generate_embedding (resp : Option (List ℚ)) : Except String (List ℚ) :=
  match resp with
  | none => .error "Failed to generate embedding"
  | some v => .ok v

/-! ## create_feedback (backend/app/api/feedback.py lines 70-86) -/

/-- The fields of a feedback row that the enrichment pipeline computes
(feedback.py line 81); request-echo fields are carried by content/source/
tier, the rest of the dict is request metadata not touched by the
claims. -/
structure FeedbackRow where
  id : String
  content : String
  sentiment : ℚ
  sentiment_label : String
  urgency : Int
  themes : List Json
  status : String

/-- The body of a create-feedback request (FeedbackCreate): the fields
the pipeline reads.  customer_tier is already resolved to its string
value with default "free" as on feedback.py line 78. -/
structure FeedbackCreate where
  content : String
  source : String
  tier : String

/-- Outcomes of the external calls made by one create_feedback request:
the queue send, the four Workers AI calls, the D1 insert and the
Vectorize insert.  Model-response payloads use the same encodings as the
service functions above. -/
structure FeedbackEnv where
  queueSend : Except String Unit
  sentimentResp : Option (List (String × ℚ))
  themesResp : Except String (Option Json)
  urgencyResp : Except String (Option Int)
  embeddingResp : Option (List ℚ)
  d1Insert : Except String Unit
  vectorizeInsert : Except String Unit

/-- The relational store: the list of persisted feedback rows (most
recent first). -/
abbrev DB := List FeedbackRow

/-- Whether the store holds a row with the given id. -/
def hasRow (db : DB) (fid : String) : Bool :=
  db.any (fun r => r.id == fid)

/-- create_feedback (feedback.py lines 70-86).  Every await is in
source order: queue.send_message, analyze_sentiment, classify_themes,
calculate_urgency, generate_embedding, d1_client.insert,
vectorize.insert.  None of them is wrapped in a try block, so the first
failure aborts the request; the row is appended to the store by the D1
insert only. -/
def create_feedback (env : FeedbackEnv) (fid : String) (fb : FeedbackCreate)
    (db : DB) : Except String FeedbackRow × DB :=
  match env.queueSend with
  | .error e => (.error e, db)
  | .ok _ =>
  match analyze_sentiment env.sentimentResp with
  | .error e => (.error e, db)
  | .ok sr =>
  match classify_themes env.themesResp with
  | .error e => (.error e, db)
  | .ok themes =>
  match calculate_urgency env.urgencyResp fb.tier with
  | .error e => (.error e, db)
  | .ok urgency =>
  match generate_embedding env.embeddingResp with
  | .error e => (.error e, db)
  | .ok _embedding =>
  let row : FeedbackRow :=
    { id := fid, content := fb.content, sentiment := sr.fst,
      sentiment_label := sr.snd, urgency := urgency, themes := themes,
      status := "new" }
  match env.d1Insert with
  | .error e => (.error e, db)
  | .ok _ =>
  match env.vectorizeInsert with
  | .error e => (.error e, row :: db)
  | .ok _ => (.ok row, row :: db)

/-! ## Chat routes (backend/app/api/chat.py) -/

/-- ChatSource (schemas.py lines 184-188). -/
structure ChatSource where
  type : String
  id : String
  title : String
  relevance : ℚ
deriving DecidableEq

/-- ChatRequest (schemas.py lines 191-193). -/
structure ChatRequest where
  message : String
  conversation_id : Option String

/-- ChatResponse (schemas.py lines 196-199). -/
structure ChatResponse where
  message : String
  sources : List ChatSource
  conversation_id : String
deriving DecidableEq

/-- One context entry appended by retrieve_context; the metadata dict is
only ever rendered into the system prompt string, so it is folded into
the rendering and not carried separately. -/
structure ContextItem where
  type : String
  content : String
deriving DecidableEq

/-- A document returned by AISearchService.search as read on chat.py
line 24: content, id, score and metadata type (defaulted to
"feedback"). -/
structure AIDoc where
  id : String
  content : String
  docType : String
  score : ℚ

/-- A row of the themes table as read on chat.py lines 41-43. -/
structure ThemeRow where
  id : String
  theme : String
  mentions : Int
  summary : String

/-- The aggregate row of the statistics query (chat.py line 47). -/
structure StatsRow where
  total : Int
  avg_sentiment : ℚ
  critical : Int

/-- One turn of a conversation (a role/content dict on chat.py lines
91-92). -/
structure Msg where
  role : String
  content : String

/-- Outcomes of the external calls made by one chat request.  Each of
the four context-gathering blocks is one field: a block whose field is
an error models any exception inside that try block's calls (chat.py
lines 20-50).  vectorLookup bundles the embedding call, the Vectorize
query result and the D1 rows fetched for the matched ids.  gen is the
outcome of the final generate_text call; freshId the uuid drawn when the
request carries no conversation id. -/
structure ChatEnv where
  aiSearch : Except Unit (List AIDoc)
  vectorLookup : Except Unit (List (String × ℚ) × List FeedbackRow)
  themeLookup : Except Unit (List ThemeRow)
  statsLookup : Except Unit (List StatsRow)
  gen : Except String String
  freshId : String

/-- Statistics context line (chat.py line 49); Python formats
avg_sentiment with two decimals, rendered here by toString, which the
claims never inspect. -/
def statsContent (s : StatsRow) : String :=
  "Last 7 days: " ++ toString s.total ++ " feedback, avg sentiment " ++
    toString s.avg_sentiment ++ ", " ++ toString s.critical ++
    " critical alerts."

/-- The seen-set comprehension of chat.py lines 52-53: keep a source iff
its id has not been seen before (first occurrence wins, order kept). -/
def dedupById (seen : List String) : List ChatSource → List ChatSource
  | [] => []
  | s :: rest =>
    if seen.contains s.id then dedupById seen rest
    else s :: dedupById (s.id :: seen) rest

/-- retrieve_context (chat.py lines 16-54).  The four try blocks run in
order; a failed block appends nothing (empty contribution) and the
request continues.  The final sources are deduplicated by id and
truncated to 10. -/
def retrieve_context (env : ChatEnv) :
    List ContextItem × List ChatSource :=
  let b1 : List ContextItem × List ChatSource :=
    match env.aiSearch with
    | .error _ => ([], [])
    | .ok docs =>
      (docs.map (fun d => ContextItem.mk "ai_search" d.content),
       docs.map (fun d =>
         ChatSource.mk d.docType d.id (d.content.take 50 ++ "...") d.score))
  let b2 : List ContextItem × List ChatSource :=
    match env.vectorLookup with
    | .error _ => ([], [])
    | .ok (vres, items) =>
      if vres.isEmpty then ([], [])
      else
        (items.map (fun it => ContextItem.mk "feedback" it.content),
         items.map (fun it =>
           ChatSource.mk "feedback" it.id (it.content.take 50 ++ "...")
             (((vres.filter (fun p => p.fst = it.id)).head?.map
               Prod.snd).getD (4/5))))
  let b3 : List ContextItem × List ChatSource :=
    match env.themeLookup with
    | .error _ => ([], [])
    | .ok themes =>
      (themes.map (fun t => ContextItem.mk "theme"
         ("Theme: " ++ t.theme ++ " with " ++ toString t.mentions ++
          " mentions. " ++ t.summary)),
       themes.map (fun t => ChatSource.mk "theme" t.id t.theme (9/10)))
  let b4 : List ContextItem :=
    match env.statsLookup with
    | .error _ => []
    | .ok [] => []
    | .ok (s :: _) => [ContextItem.mk "statistics" (statsContent s)]
  let sources := b1.snd ++ b2.snd ++ b3.snd
  (b1.fst ++ b2.fst ++ b3.fst ++ b4, (dedupById [] sources).take 10)

/-- Python list[-n:]: the suffix of the last n elements. -/
def lastN (n : Nat) (l : List α) : List α := l.drop (l.length - n)

/-- The history slice replayed into the generation prompt
(chat.py line 83): conversations[conversation_id][-10:]. -/
def promptHistory (hist : List Msg) : List Msg := lastN 10 hist

/-- full_prompt (chat.py lines 84-87). -/
def fullPrompt (history : List Msg) (message : String) : String :=
  if history.isEmpty then message
  else
    "Previous:\n" ++
      (String.intercalate "\n" (history.map (fun m =>
        (if m.role = "user" then "User: " else "Assistant: ") ++
          m.content))) ++
      "\n\nUser: " ++ message

/-- The append-and-trim of chat.py lines 91-94: push the user and
assistant turns, then keep only the last 50 turns. -/
def appendTurns (hist : List Msg) (u a : Msg) : List Msg :=
  let h := hist ++ [u, a]
  if 50 < h.length then lastN 50 h else h

/-- The conversations dict (chat.py line 13), as an association list
where insertion prepends and lookup takes the newest binding. -/
abbrev ConvMap := List (String × List Msg)

/-- send_chat_message (chat.py lines 74-96).  The conversation id is the
request's or a fresh uuid; a missing id is bound to an empty history
before context retrieval; generation failure propagates after that
binding; on success both turns are appended and the history trimmed to
50. -/
def send_chat_message (env : ChatEnv) (req : ChatRequest) (st : ConvMap) :
    Except String ChatResponse × ConvMap :=
  let cid := req.conversation_id.getD env.freshId
  let st1 : ConvMap :=
    match List.lookup cid st with
    | none => (cid, ([] : List Msg)) :: st
    | some _ => st
  let rc := retrieve_context env
  let history := promptHistory ((List.lookup cid st1).getD [])
  let _prompt := fullPrompt history req.message
  match env.gen with
  | .error e => (.error e, st1)
  | .ok response =>
    let newHist := appendTurns ((List.lookup cid st1).getD [])
      (Msg.mk "user" req.message) (Msg.mk "assistant" response)
    (.ok (ChatResponse.mk response rc.snd cid), (cid, newHist) :: st1)

/-- get_chat_history (chat.py lines 99-103): 404 when the id is absent,
otherwise the stored turns. -/
def get_chat_history (st : ConvMap) (cid : String) :
    Except Nat (List Msg) :=
  match List.lookup cid st with
  | none => .error 404
  | some h => .ok h

/-! ## Spec-side definitions (written from the spec's words, to be
compared with the embedded code) -/

/-- The fixed theme vocabulary named by the spec (and listed in the
classifier prompt, cloudflare.py line 62). -/
def themeVocabulary : List String :=
  ["performance", "reliability", "documentation", "pricing", "support",
   "feature-request", "bug", "security", "usability", "integration"]

/-- The spec's static per-tier urgency default: enterprise 7, pro 5,
free 3, anything else 5. -/
def tierDefaultSpec (tier : String) : Int :=
  if tier = "enterprise" then 7
  else if tier = "pro" then 5
  else if tier = "free" then 3
  else 5

/-- The spec's description of deduplication: keep each id's first
occurrence, in the original order. -/
def firstOccurrences : List ChatSource → List ChatSource
  | [] => []
  | s :: rest =>
    s :: firstOccurrences (rest.filter (fun t => t.id != s.id))
termination_by l => l.length
decreasing_by
  simpa using Nat.lt_succ_of_le (List.length_filter_le _ _)

/-- Iterating chat requests from the initially empty conversations dict
(chat.py line 13), threading the conversation state. -/
def runChats : List (ChatEnv × ChatRequest) → ConvMap
  | [] => []
  | step :: rest => (send_chat_message step.fst step.snd (runChats rest)).snd

/-! ## Concrete instances used by witnesses and counterexamples -/

/-- A concrete create-feedback request body. -/
def fbEx : FeedbackCreate :=
  { content := "Cold starts are unbearable", source := "github",
    tier := "enterprise" }

/-- A feedback environment in which every external call succeeds. -/
def envAllOk : FeedbackEnv :=
  { queueSend := .ok ()
    sentimentResp := some [("POSITIVE", 9/10), ("NEGATIVE", 1/10)]
    themesResp := .ok (some (.arr [.str "bug"]))
    urgencyResp := .ok (some 8)
    embeddingResp := some [1, 0]
    d1Insert := .ok ()
    vectorizeInsert := .ok () }

/-- envAllOk with a failing embedding call. -/
def envEmbedFail : FeedbackEnv := { envAllOk with embeddingResp := none }

/-- envAllOk with a failing queue send. -/
def envQueueFail : FeedbackEnv :=
  { envAllOk with queueSend := .error "queue down" }

/-- The row create_feedback persists under envAllOk. -/
def rowEx : FeedbackRow :=
  { id := "f1", content := "Cold starts are unbearable", sentiment := 4/5,
    sentiment_label := "positive", urgency := 8, themes := [.str "bug"],
    status := "new" }

/-- Concrete chat sources: srcA2 shares srcA's id. -/
def srcA : ChatSource := { type := "feedback", id := "A", title := "a1", relevance := 1 }

/-- Second source with id A. -/
def srcA2 : ChatSource := { type := "feedback", id := "A", title := "a2", relevance := 1/2 }

/-- Source with id B. -/
def srcB : ChatSource := { type := "feedback", id := "B", title := "b", relevance := 1 }

/-- Source with id C. -/
def srcC : ChatSource := { type := "theme", id := "C", title := "c", relevance := 9/10 }

/-- A chat environment in which every call succeeds. -/
def chatEnvBase : ChatEnv :=
  { aiSearch := .ok []
    vectorLookup := .ok ([], [])
    themeLookup := .ok []
    statsLookup := .ok [{ total := 3, avg_sentiment := 1/2, critical := 1 }]
    gen := .ok "hi"
    freshId := "fresh" }

/-- chatEnvBase with a failing generation call. -/
def chatEnvGenFail : ChatEnv := { chatEnvBase with gen := .error "model down" }

/-- A concrete chat request addressed to conversation c1. -/
def reqEx : ChatRequest := { message := "what is hot", conversation_id := some "c1" }

/-! ## Theorems -/

/-- C1: the sentiment label is a function of the score alone, follows
the documented threshold bands (written as disjoint intervals in
bandLabelSpec), and the boundary scores -0.5, -0.3, -0.1, 0.1, 0.3
resolve to concerned, annoyed, neutral, positive, positive. -/
theorem sentiment_label_matches_threshold_bands :
    (∀ s : ℚ, sentimentLabel s = bandLabelSpec s) ∧
    sentimentLabel (-(1/2)) = "concerned" ∧
    sentimentLabel (-(3/10)) = "annoyed" ∧
    sentimentLabel (-(1/10)) = "neutral" ∧
    sentimentLabel (1/10) = "positive" ∧
    sentimentLabel (3/10) = "positive" := by
  refine ⟨fun s => ?_, ?_, ?_, ?_, ?_, ?_⟩
  · unfold sentimentLabel bandLabelSpec
    split_ifs <;>
      first
        | rfl
        | (exfalso; simp_all; done)
        | (exfalso; simp_all
           try casesm* _ ∧ _
           linarith)
  all_goals norm_num [sentimentLabel]

/-- C2: when embedding generation fails, create_feedback returns an
error, the store is unchanged, and in particular no row with the
request's id exists afterwards if none existed before. -/
theorem create_feedback_embedding_failure_aborts (env : FeedbackEnv)
    (fid : String) (fb : FeedbackCreate) (db : DB)
    (h : env.embeddingResp = none) :
    (create_feedback env fid fb db).snd = db ∧
    (∀ r, (create_feedback env fid fb db).fst ≠ .ok r) ∧
    (hasRow db fid = false →
      hasRow (create_feedback env fid fb db).snd fid = false) := by
  have key : ∃ e, create_feedback env fid fb db = (.error e, db) := by
    unfold create_feedback
    cases hq : env.queueSend with
    | error e => exact ⟨e, rfl⟩
    | ok u =>
      cases hs : analyze_sentiment env.sentimentResp with
      | error e => exact ⟨e, rfl⟩
      | ok sr =>
        cases ht : classify_themes env.themesResp with
        | error e => exact ⟨e, rfl⟩
        | ok th =>
          cases hu : calculate_urgency env.urgencyResp fb.tier with
          | error e => exact ⟨e, rfl⟩
          | ok urg =>
            rw [h]
            exact ⟨"Failed to generate embedding", rfl⟩
  obtain ⟨e, he⟩ := key
  rw [he]
  exact ⟨rfl, fun r hr => Except.noConfusion hr, fun hh => hh⟩

/-- Witness for C2 at a concrete environment whose embedding call
fails. -/
theorem create_feedback_embedding_failure_witness :
    envEmbedFail.embeddingResp = none ∧
    ((create_feedback envEmbedFail "f1" fbEx []).snd = [] ∧
     (∀ r, (create_feedback envEmbedFail "f1" fbEx []).fst ≠ .ok r) ∧
     (hasRow [] "f1" = false →
       hasRow (create_feedback envEmbedFail "f1" fbEx []).snd "f1" = false)) :=
  ⟨rfl, create_feedback_embedding_failure_aborts envEmbedFail "f1" fbEx [] rfl⟩

/-- Counterexample to C3 as stated: the queue send is awaited with no
exception handler, so its failure turns a create-feedback request that
would otherwise succeed into an error response. -/
theorem queue_failure_changes_response :
    (create_feedback envQueueFail "f1" fbEx []).fst = .error "queue down" ∧
    (create_feedback envAllOk "f1" fbEx []).fst = .ok rowEx ∧
    (Except.error "queue down" : Except String FeedbackRow) ≠ .ok rowEx := by
  refine ⟨rfl, ?_, fun hh => Except.noConfusion hh⟩
  simp [create_feedback, envAllOk, fbEx, analyze_sentiment, sentimentLabel,
    classify_themes, classifyThemesParse, calculate_urgency,
    urgencyFromParse, generate_embedding, rowEx]
  norm_num

/-- C3 amended: the queue push is awaited first in create_feedback and
is not fire-and-forget: if the queue send fails, the whole request fails
with that error and nothing is persisted. -/
theorem queue_failure_fails_create (env : FeedbackEnv) (fid : String)
    (fb : FeedbackCreate) (db : DB) (e : String)
    (h : env.queueSend = .error e) :
    create_feedback env fid fb db = (.error e, db) := by
  unfold create_feedback; rw [h]

/-- Witness for the amended C3 at a concrete environment whose queue
send fails. -/
theorem queue_failure_fails_create_witness :
    envQueueFail.queueSend = .error "queue down" ∧
    create_feedback envQueueFail "f1" fbEx [] = (.error "queue down", []) :=
  ⟨rfl, queue_failure_fails_create envQueueFail "f1" fbEx [] "queue down" rfl⟩

/-- Counterexample to C4 as stated: a model response that parses to the
array ["offtopic"] is returned verbatim even though "offtopic" is
outside the fixed vocabulary, and the result is not the fallback tag
either. -/
theorem themes_escape_vocabulary :
    classifyThemesParse (some (.arr [.str "offtopic"])) = [.str "offtopic"] ∧
    "offtopic" ∉ themeVocabulary ∧
    [Json.str "offtopic"] ≠ [Json.str "uncategorized"] := by
  refine ⟨rfl, by decide, ?_⟩
  intro hh
  have h1 : Json.str "offtopic" = Json.str "uncategorized" :=
    (List.cons.injEq _ _ _ _ ▸ hh).1
  have h2 : "offtopic" = "uncategorized" := Json.str.injEq _ _ ▸ h1
  exact absurd h2 (by decide)

/-- C4 amended: the classifier applies no vocabulary filter: every
model response that parses to a JSON array yields that array verbatim,
whatever its elements, and every other parse outcome yields exactly
["uncategorized"]. -/
theorem classify_themes_array_verbatim :
    (∀ xs, classifyThemesParse (some (.arr xs)) = xs) ∧
    (∀ parsed : Option Json, (∀ xs, parsed ≠ some (.arr xs)) →
      classifyThemesParse parsed = [.str "uncategorized"]) := by
  refine ⟨fun _ => rfl, fun parsed hne => ?_⟩
  match parsed with
  | none => rfl
  | some .null => rfl
  | some (.bool b) => rfl
  | some (.int n) => rfl
  | some (.num n d) => rfl
  | some (.str s) => rfl
  | some (.arr xs) => exact absurd rfl (hne xs)
  | some (.obj kvs) => rfl

/-- Witness for the amended C4: an out-of-vocabulary array passes
through verbatim; a non-array outcome falls back. -/
theorem classify_themes_array_verbatim_witness :
    classifyThemesParse (some (.arr [.str "offtopic", .str "bug"])) =
      [.str "offtopic", .str "bug"] ∧
    classifyThemesParse (some (.str "x")) = [.str "uncategorized"] :=
  ⟨classify_themes_array_verbatim.1 [.str "offtopic", .str "bug"],
   classify_themes_array_verbatim.2 (some (.str "x"))
     (fun xs h => Json.noConfusion (Option.some.inj h))⟩

/-- C5: any theme-classification response that is not valid JSON or does
not parse to an array yields exactly ["uncategorized"], and the guarded
parse never turns a successfully fetched response into an error. -/
theorem classify_themes_fallback (parsed : Option Json)
    (h : ∀ xs, parsed ≠ some (.arr xs)) :
    classify_themes (.ok parsed) = .ok [.str "uncategorized"] := by
  match parsed with
  | none => rfl
  | some .null => rfl
  | some (.bool b) => rfl
  | some (.int n) => rfl
  | some (.num n d) => rfl
  | some (.str s) => rfl
  | some (.arr xs) => exact absurd rfl (h xs)
  | some (.obj kvs) => rfl

/-- Witness for C5 at the outcome of an invalid-JSON response. -/
theorem classify_themes_fallback_witness :
    (∀ xs, (none : Option Json) ≠ some (.arr xs)) ∧
    classify_themes (.ok none) = .ok [.str "uncategorized"] :=
  ⟨fun _ hh => Option.noConfusion hh,
   classify_themes_fallback none (fun _ hh => Option.noConfusion hh)⟩

/-- The tier-default dict lookup of cloudflare.py line 77 agrees with
the spec's per-tier default table. -/
lemma tierDefault_lookup (t : String) :
    (([("enterprise", (7 : Int)), ("pro", 5), ("free", 3)]).lookup t).getD 5 =
      tierDefaultSpec t := by
  by_cases h1 : t = "enterprise"
  · subst h1; rfl
  · by_cases h2 : t = "pro"
    · subst h2; rfl
    · by_cases h3 : t = "free"
      · subst h3; rfl
      · simp only [List.lookup, beq_eq_false_iff_ne.mpr h1,
          beq_eq_false_iff_ne.mpr h2, beq_eq_false_iff_ne.mpr h3]
        simp [tierDefaultSpec, h1, h2, h3]

/-- C6: urgency is always within [1,10]; on parse failure it is exactly
the static per-tier default applied to the lowercased tier (enterprise
7, pro 5, free 3, otherwise 5); on parse success it is the parsed
integer clamped into [1,10]. -/
theorem urgency_clamped_and_defaulted (parsed : Option Int) (tier : String) :
    1 ≤ urgencyFromParse parsed tier ∧ urgencyFromParse parsed tier ≤ 10 ∧
    (parsed = none →
      urgencyFromParse parsed tier = tierDefaultSpec (strLower tier)) ∧
    (∀ n, parsed = some n →
      urgencyFromParse parsed tier = max 1 (min 10 n)) := by
  match parsed with
  | none =>
    have hd : urgencyFromParse none tier = tierDefaultSpec (strLower tier) :=
      tierDefault_lookup (strLower tier)
    refine ⟨?_, ?_, fun _ => hd, fun n hn => Option.noConfusion hn⟩
    all_goals
      rw [hd]; unfold tierDefaultSpec; split_ifs <;> norm_num
  | some n =>
    refine ⟨le_max_left 1 _, ?_, fun hn => Option.noConfusion hn,
      fun m hm => by cases hm; rfl⟩
    have : urgencyFromParse (some n) tier = max 1 (min 10 n) := rfl
    rw [this]
    omega

/-- Witness for C6: a mixed-case unknown-dict tier on parse failure, and
an out-of-range parsed integer. -/
theorem urgency_clamped_and_defaulted_witness :
    (urgencyFromParse none "Enterprise" = tierDefaultSpec (strLower "Enterprise") ∧
     urgencyFromParse (some 42) "free" = max 1 (min 10 42)) ∧
    tierDefaultSpec (strLower "Enterprise") = 7 ∧ max 1 (min 10 (42 : Int)) = 10 :=
  ⟨⟨(urgency_clamped_and_defaulted none "Enterprise").2.2.1 rfl,
    (urgency_clamped_and_defaulted (some 42) "free").2.2.2 42 rfl⟩,
   by decide, by decide⟩

/-- C7: each context-gathering block fails independently: a failing
block contributes exactly what a block with no results contributes,
leaving the other blocks and the request untouched; the final
generation call is fatal: its failure is the failure of the whole
request, and on its success the response carries the generated text and
the retrieved sources. -/
theorem context_failures_isolated_generation_fatal (env : ChatEnv) :
    retrieve_context { env with aiSearch := .error () } =
      retrieve_context { env with aiSearch := .ok [] } ∧
    retrieve_context { env with vectorLookup := .error () } =
      retrieve_context { env with vectorLookup := .ok ([], []) } ∧
    retrieve_context { env with themeLookup := .error () } =
      retrieve_context { env with themeLookup := .ok [] } ∧
    retrieve_context { env with statsLookup := .error () } =
      retrieve_context { env with statsLookup := .ok [] } ∧
    (∀ req st e, env.gen = .error e →
      (send_chat_message env req st).fst = .error e) ∧
    (∀ req st r, env.gen = .ok r →
      (send_chat_message env req st).fst =
        .ok (ChatResponse.mk r (retrieve_context env).snd
          (req.conversation_id.getD env.freshId))) := by
  refine ⟨rfl, rfl, rfl, rfl, fun req st e he => ?_, fun req st r hr => ?_⟩
  · simp only [send_chat_message, he]
  · simp only [send_chat_message, hr]

/-- Witness for C7: a failing generation call fails the request; a
successful one answers with the generated text. -/
theorem context_failures_isolated_generation_fatal_witness :
    ((send_chat_message chatEnvGenFail reqEx []).fst = .error "model down") ∧
    ((send_chat_message chatEnvBase reqEx []).fst =
      .ok (ChatResponse.mk "hi" (retrieve_context chatEnvBase).snd
        (reqEx.conversation_id.getD chatEnvBase.freshId))) :=
  ⟨(context_failures_isolated_generation_fatal chatEnvGenFail).2.2.2.2.1
      reqEx [] "model down" rfl,
   (context_failures_isolated_generation_fatal chatEnvBase).2.2.2.2.2
      reqEx [] "hi" rfl⟩

/-- The seen-set comprehension, run with ids seen already, equals the
first-occurrence spec on the sources whose ids are unseen. -/
lemma dedupById_eq_firstOccurrences (l : List ChatSource) :
    ∀ seen, dedupById seen l =
      firstOccurrences (l.filter (fun t => !(seen.contains t.id))) := by
  induction l with
  | nil => intro seen; simp [dedupById, firstOccurrences]
  | cons s rest ih =>
    intro seen
    have hstep : dedupById seen (s :: rest) =
        if seen.contains s.id then dedupById seen rest
        else s :: dedupById (s.id :: seen) rest := rfl
    by_cases hb : seen.contains s.id = true
    · have hmem : s.id ∈ seen := by simpa using hb
      have hfil : (s :: rest).filter (fun t => !seen.contains t.id) =
          rest.filter (fun t => !seen.contains t.id) := by
        simp [List.filter_cons, hmem]
      have hL : dedupById seen (s :: rest) = dedupById seen rest := by
        rw [hstep, if_pos hb]
      rw [hfil, hL]
      exact ih seen
    · have hb' : seen.contains s.id = false := by simpa using hb
      have hmem : s.id ∉ seen := by simpa using hb'
      have hfil : (s :: rest).filter (fun t => !seen.contains t.id) =
          s :: rest.filter (fun t => !seen.contains t.id) := by
        simp [List.filter_cons, hmem]
      have hL : dedupById seen (s :: rest) =
          s :: dedupById (s.id :: seen) rest := by
        rw [hstep, if_neg hb]
      rw [hfil, hL, firstOccurrences, ih (s.id :: seen)]
      congr 1
      rw [List.filter_filter]
      congr 1
      apply List.filter_congr
      intro t _
      by_cases heq : t.id = s.id
      · simp [List.contains_cons, Bool.not_or, bne, heq]
      · simp [List.contains_cons, Bool.not_or, bne, heq,
          beq_eq_false_iff_ne.mpr heq]

/-- C8: deduplication keeps exactly the first occurrence of each source
id in the original order, the final list is truncated to at most 10, and
the ids [A,B,A,C] dedupe to [A,B,C] in that order. -/
theorem dedup_first_occurrence_stable (sources : List ChatSource) :
    dedupById [] sources = firstOccurrences sources ∧
    ((dedupById [] sources).take 10).length ≤ 10 ∧
    dedupById [] [srcA, srcB, srcA2, srcC] = [srcA, srcB, srcC] := by
  refine ⟨?_, List.length_take_le 10 _, rfl⟩
  have h := dedupById_eq_firstOccurrences sources []
  simpa using h

/-- Appending a user/assistant pair and trimming leaves at most 50
turns, whatever the previous length. -/
lemma appendTurns_length_le (h : List Msg) (u a : Msg) :
    (appendTurns h u a).length ≤ 50 := by
  unfold appendTurns lastN
  dsimp only
  split_ifs with hl
  · simp only [List.length_drop]
    omega
  · simp only [List.length_append] at hl ⊢
    omega

/-- Prepending a bounded history keeps the turn-bound invariant of the
conversations dict. -/
lemma lookup_cons_bound (k : String) (v : List Msg) (st : ConvMap)
    (hv : v.length ≤ 50)
    (hst : ∀ cid h, List.lookup cid st = some h → h.length ≤ 50) :
    ∀ cid h, List.lookup cid ((k, v) :: st) = some h → h.length ≤ 50 := by
  intro cid h hl
  cases hb : cid == k with
  | true =>
    rw [List.lookup, hb] at hl
    cases hl
    exact hv
  | false =>
    rw [List.lookup, hb] at hl
    exact hst cid h hl

/-- One chat request preserves the 50-turn bound on every stored
conversation. -/
lemma send_chat_preserves_turn_bound (env : ChatEnv) (req : ChatRequest)
    (st : ConvMap)
    (hst : ∀ cid h, List.lookup cid st = some h → h.length ≤ 50) :
    ∀ cid h, List.lookup cid (send_chat_message env req st).snd = some h →
      h.length ≤ 50 := by
  have hst1 : ∀ cid h,
      List.lookup cid
        (match List.lookup (req.conversation_id.getD env.freshId) st with
         | none => (req.conversation_id.getD env.freshId, ([] : List Msg)) :: st
         | some _ => st) = some h → h.length ≤ 50 := by
    cases hho : List.lookup (req.conversation_id.getD env.freshId) st with
    | none =>
      exact lookup_cons_bound _ [] st (by simp) hst
    | some v => exact hst
  cases hho : List.lookup (req.conversation_id.getD env.freshId) st with
  | none =>
    cases hg : env.gen with
    | error e =>
      intro cid h hl
      refine hst1 cid h ?_
      rw [hho]
      simpa [send_chat_message, hho, hg] using hl
    | ok r =>
      intro cid h hl
      rw [show (send_chat_message env req st).snd =
          (req.conversation_id.getD env.freshId,
            appendTurns ((List.lookup (req.conversation_id.getD env.freshId)
              ((req.conversation_id.getD env.freshId, ([] : List Msg)) :: st)).getD [])
              (Msg.mk "user" req.message) (Msg.mk "assistant" r)) ::
            (req.conversation_id.getD env.freshId, ([] : List Msg)) :: st
          from by simp [send_chat_message, hho, hg]] at hl
      refine lookup_cons_bound _ _ _ (appendTurns_length_le _ _ _)
        (lookup_cons_bound _ [] st (by simp) hst) cid h hl
  | some v =>
    cases hg : env.gen with
    | error e =>
      intro cid h hl
      refine hst cid h ?_
      simpa [send_chat_message, hho, hg] using hl
    | ok r =>
      intro cid h hl
      rw [show (send_chat_message env req st).snd =
          (req.conversation_id.getD env.freshId,
            appendTurns ((List.lookup (req.conversation_id.getD env.freshId)
              st).getD [])
              (Msg.mk "user" req.message) (Msg.mk "assistant" r)) :: st
          from by simp [send_chat_message, hho, hg]] at hl
      refine lookup_cons_bound _ _ _ (appendTurns_length_le _ _ _) hst cid h hl

/-- Every conversation reachable by any sequence of chat requests from
the empty dict satisfies the 50-turn bound. -/
lemma runChats_turn_bound (steps : List (ChatEnv × ChatRequest)) :
    ∀ cid h, List.lookup cid (runChats steps) = some h → h.length ≤ 50 := by
  induction steps with
  | nil => intro cid h hl; exact absurd hl (by simp [runChats, List.lookup])
  | cons step rest ih =>
    exact send_chat_preserves_turn_bound step.fst step.snd (runChats rest) ih

/-- C9: after any number of chat requests the stored turn count of any
conversation is at most 50, and the slice of it replayed into the
generation prompt is at most its 10 most recent turns. -/
theorem conversation_turns_bounded (steps : List (ChatEnv × ChatRequest))
    (cid : String) (h : List Msg)
    (hh : List.lookup cid (runChats steps) = some h) :
    h.length ≤ 50 ∧ (promptHistory h).length ≤ 10 ∧
    List.IsSuffix (promptHistory h) h := by
  refine ⟨runChats_turn_bound steps cid h hh, ?_, ?_⟩
  · simp only [promptHistory, lastN, List.length_drop]
    omega
  · exact List.drop_suffix _ _

/-- Witness for C9: one concrete chat request stores a two-turn
conversation, within both bounds. -/
theorem conversation_turns_bounded_witness :
    List.lookup "c1" (runChats [(chatEnvBase, reqEx)]) =
      some [Msg.mk "user" "what is hot", Msg.mk "assistant" "hi"] ∧
    ([Msg.mk "user" "what is hot", Msg.mk "assistant" "hi"].length ≤ 50 ∧
     (promptHistory [Msg.mk "user" "what is hot", Msg.mk "assistant" "hi"]).length ≤ 10 ∧
     List.IsSuffix
       (promptHistory [Msg.mk "user" "what is hot", Msg.mk "assistant" "hi"])
       [Msg.mk "user" "what is hot", Msg.mk "assistant" "hi"]) :=
  ⟨rfl, conversation_turns_bounded [(chatEnvBase, reqEx)] "c1" _ rfl⟩

/-- C10: a chat request on a conversation id not yet stored binds that
id to an empty history before generation; if generation fails, the
request errors, the id stays bound to the empty history, and
get_chat_history answers with the empty list rather than 404. -/
theorem empty_history_survives_generation_failure (env : ChatEnv)
    (req : ChatRequest) (st : ConvMap) (e : String)
    (hnew : List.lookup (req.conversation_id.getD env.freshId) st = none)
    (hg : env.gen = .error e) :
    (send_chat_message env req st).fst = .error e ∧
    List.lookup (req.conversation_id.getD env.freshId)
      (send_chat_message env req st).snd = some [] ∧
    get_chat_history (send_chat_message env req st).snd
      (req.conversation_id.getD env.freshId) = .ok [] := by
  have hsnd : (send_chat_message env req st).snd =
      (req.conversation_id.getD env.freshId, ([] : List Msg)) :: st := by
    simp [send_chat_message, hnew, hg]
  have hfst : (send_chat_message env req st).fst = .error e := by
    simp [send_chat_message, hnew, hg]
  have hlook : List.lookup (req.conversation_id.getD env.freshId)
      ((req.conversation_id.getD env.freshId, ([] : List Msg)) :: st) =
      some [] := by
    rw [List.lookup, beq_self_eq_true]
  refine ⟨hfst, by rw [hsnd]; exact hlook, ?_⟩
  rw [get_chat_history, hsnd, hlook]

/-- Witness for C10 at a fresh conversation id and a failing generation
call. -/
theorem empty_history_survives_generation_failure_witness :
    List.lookup (reqEx.conversation_id.getD chatEnvGenFail.freshId)
      ([] : ConvMap) = none ∧
    chatEnvGenFail.gen = .error "model down" ∧
    ((send_chat_message chatEnvGenFail reqEx []).fst = .error "model down" ∧
     List.lookup (reqEx.conversation_id.getD chatEnvGenFail.freshId)
       (send_chat_message chatEnvGenFail reqEx []).snd = some [] ∧
     get_chat_history (send_chat_message chatEnvGenFail reqEx []).snd
       (reqEx.conversation_id.getD chatEnvGenFail.freshId) = .ok []) :=
  ⟨rfl, rfl,
   empty_history_survives_generation_failure chatEnvGenFail reqEx []
     "model down" rfl rfl⟩

end CF
